import Mathlib

/-!
Shallow embedding of the Azure Repos backend (`vcsclient/azurerepos.go`) of the
froggit-go multi-provider VCS client abstraction.

Provider/SDK/transport interactions are modelled as explicit oracle arguments:
each client method takes, as an extra argument, the response the provider would
return for the single call the method issues, so every method is a pure function
of its arguments, the connection state and the provider response.  Go
multi-value returns `(T, error)` are modelled as `T × Option GoError`
(`none` is Go's nil error), Go nil pointers as `Option`, and Go runtime panics
by the `Outcome` type.  Common result types of the repository that are declared
outside this file are modelled from the spec (section 3) and are marked as such.
-/

/-- Model of a Go `time.Time`, reduced to the unix-seconds view used by this
file. -/
structure GoTime where
  unix : Int
deriving DecidableEq, Repr

/-- Model of `time.Time.Unix()`: the time as unix seconds. -/
def GoTime.Unix (t : GoTime) : Int := t.unix

/-- Model of a Go `error` value as this file handles it: either an error value
produced by the Azure DevOps SDK / HTTP transport and handled opaquely, or an
error constructed inside this file by `errors.New` / `fmt.Errorf` carrying a
message. -/
inductive GoError where
  | providerNative (payload : String)
  | clientMessage (msg : String)
deriving DecidableEq, Repr

/-- Whether an error value is a provider-native value (constructed by the SDK
or the transport, not by the backend itself). -/
def GoError.isProviderNative : GoError → Bool
  | .providerNative _ => true
  | .clientMessage _ => false

/-- The message text of an error value. -/
def GoError.text : GoError → String
  | .providerNative s => s
  | .clientMessage s => s

/-- The string `s` contains `sub` as a contiguous substring. -/
def ContainsSub (s sub : String) : Prop :=
  ∃ a b : List Char, s.data = a ++ sub.data ++ b

/-- An error names a given operation and the Azure Repos provider: both appear
in its message text. -/
def NamesOperationAndProvider (e : GoError) (operation : String) : Prop :=
  ContainsSub e.text operation ∧ ContainsSub e.text "Azure Repos"

namespace vcsutils

/-- Modelled from the spec: `vcsutils.DefaultIfNotNil` (repository code outside
this file).  Per section 3, "fields absent from a provider are zero-valued,
never fabricated": a nil pointer maps to the zero value of the type, a non-nil
pointer to the value it points to. -/
def DefaultIfNotNil [Inhabited α] (v : Option α) : α := v.getD default

/-- Modelled from the spec: `vcsutils.AddBranchPrefix` (repository code outside
this file).  Per section 3 the backend normalizes a branch name to the
provider's canonical ref name by adding the ref prefix consistently: a nonempty
name not already under `refs/` becomes `refs/heads/<name>`. -/
def addBranchRefName (branch : String) : String :=
  if branch = "" then branch
  else if branch.startsWith "refs/" then branch
  else "refs/heads/" ++ branch

/-- Modelled from the spec: `vcsutils.WebhookEvent` (repository code outside
this file), an opaque webhook event tag. -/
structure WebhookEvent where
  event : String
deriving DecidableEq, Repr

end vcsutils

/-- Modelled from the spec: `Permission` (repository code outside this file),
an opaque permission level passed to `AddSshKeyToRepository`. -/
structure Permission where
  level : Nat
deriving DecidableEq, Repr

/-- Modelled from the spec: `CommitStatus` (repository code outside this file),
"enumerated state (success, failure, pending, error)". -/
inductive CommitStatus where
  | success
  | failure
  | pending
  | error
deriving DecidableEq, Repr

/-- Modelled from the spec: `RepositoryInfo` (repository code outside this
file), "identifies a repository (name, project/owner, visibility/clone info as
available)". -/
structure RepositoryInfo where
  Name : String
  Owner : String
  Visibility : String
  CloneUrl : String
deriving DecidableEq, Repr

/-- Modelled from the spec: `LabelInfo` (repository code outside this file),
"label name plus optional color/description metadata". -/
structure LabelInfo where
  Name : String
  Color : String
  Description : String
deriving DecidableEq, Repr

/-- Modelled from the spec: `CommitInfo` (repository code outside this file),
with exactly the fields populated by `GetLatestCommit` in this file and listed
in section 3: Hash, AuthorName, CommitterName, Url, Timestamp (unix seconds),
Message, ParentHashes. -/
structure CommitInfo where
  Hash : String
  AuthorName : String
  CommitterName : String
  Url : String
  Timestamp : Int
  Message : String
  ParentHashes : List String
deriving DecidableEq, Repr

/-- Modelled from the spec: `CommentInfo` (repository code outside this file),
"ID, Created (timestamp), Content", with the fields populated by
`ListPullRequestComments` in this file. -/
structure CommentInfo where
  ID : Int
  Created : GoTime
  Content : String
deriving DecidableEq, Repr

/-- The connection descriptor `VcsInfo` (fields of it read by this file). -/
structure VcsInfo where
  APIEndpoint : String
  Token : String
  Project : String
deriving DecidableEq, Repr

/-- The `azuredevops.Connection` fields read by this file. -/
structure Connection where
  BaseUrl : String
  AuthorizationString : String
deriving DecidableEq, Repr

/-- `AzureReposClient` (azurerepos.go lines 17-21); the logger collaborator is
effect-free for results and is omitted. -/
structure AzureReposClient where
  vcsInfo : VcsInfo
  connectionDetails : Option Connection
deriving DecidableEq, Repr

/-- `buildAzureReposClient` (lines 31-36): fails with the `errors.New` message
iff the connection details were never initialized; otherwise the SDK git client
is available (its behaviour is the per-call oracle). -/
def AzureReposClient.buildAzureReposClient (client : AzureReposClient) :
    Except GoError Connection :=
  match client.connectionDetails with
  | none => .error (.clientMessage "connection details wasn't initialized")
  | some c => .ok c

/-- Fields of the SDK `git.GitRepository` read by this file. -/
structure GitRepository where
  Name : String
deriving DecidableEq, Repr

/-- Fields of the SDK `git.GitBranchStats` read by this file. -/
structure GitBranchStats where
  Name : String
deriving DecidableEq, Repr

/-- Fields of the SDK `git.GitUserDate` read by this file; `Name` is a nillable
pointer in the SDK. -/
structure GitUserDate where
  Name : Option String
  Date : GoTime
deriving DecidableEq, Repr

/-- Fields of the SDK `git.GitCommitRef` read by this file; pointer fields that
the code guards with `vcsutils.DefaultIfNotNil` are `Option`. -/
structure GitCommitRef where
  CommitId : Option String
  Author : GitUserDate
  Committer : GitUserDate
  Url : Option String
  Comment : Option String
  Parents : Option (List String)
deriving DecidableEq, Repr

/-- Fields of the SDK `git.Comment` read by this file (`Author.DisplayName`,
`Id`, `Content`). -/
structure Comment where
  AuthorDisplayName : String
  Id : Int
  Content : String
deriving DecidableEq, Repr

/-- Fields of the SDK `git.GitPullRequestCommentThread` read by this file. -/
structure CommentThread where
  Id : Int
  PublishedDate : GoTime
  Comments : List Comment
deriving DecidableEq, Repr

/-- The SDK `git.GitPullRequest` payload built by `CreatePullRequest`. -/
structure GitPullRequest where
  Description : String
  SourceRefName : String
  TargetRefName : String
  Title : String
deriving DecidableEq, Repr

/-- `TestConnection` (lines 38-43): issues `GetResourceAreas` and returns that
call's error unchanged.  The oracle `resp` is the SDK call's result. -/
def AzureReposClient.TestConnection (client : AzureReposClient)
    (resp : Except GoError Unit) : Option GoError :=
  match resp with
  | .error e => some e
  | .ok _ => none

/-- The Go map update `m[k] = append(m[k], v)` on an association-list model of
a `map[string][]string` (a missing key holds the nil slice `[]`). -/
def mapAppend (m : List (String × List String)) (k v : String) :
    List (String × List String) :=
  match m with
  | [] => [(k, [v])]
  | (k', vs) :: rest =>
    if k' = k then (k', vs ++ [v]) :: rest else (k', vs) :: mapAppend rest k v

/-- `ListRepositories` (lines 45-60): asks the provider for the repositories of
the configured project and folds their names into the result map under the
project key, in response order.  On a provider error the allocated (empty) map
is returned together with the error, exactly as in the Go code. -/
def AzureReposClient.ListRepositories (client : AzureReposClient)
    (resp : Except GoError (List GitRepository)) :
    List (String × List String) × Option GoError :=
  match client.buildAzureReposClient with
  | .error e => ([], some e)
  | .ok _ =>
    match resp with
    | .error e => ([], some e)
    | .ok repos =>
      (repos.foldl (fun m repo => mapAppend m client.vcsInfo.Project repo.Name) [],
       none)

/-- `ListBranches` (lines 62-77): the owner argument is the ignored `_`
parameter of the Go method; branch names are appended in response order. -/
def AzureReposClient.ListBranches (client : AzureReposClient)
    (owner repository : String)
    (resp : Except GoError (List GitBranchStats)) :
    List String × Option GoError :=
  match client.buildAzureReposClient with
  | .error e => ([], some e)
  | .ok _ =>
    match resp with
    | .error e => ([], some e)
    | .ok stats => (stats.foldl (fun bs b => bs ++ [b.Name]) [], none)

/-- `CreatePullRequest` (lines 148-167): the owner argument is the ignored `_`
parameter; both branches are normalized with the ref prefix and the payload is
forwarded to the provider, whose error (if any) is returned unchanged.  The
oracle `providerCreate` maps the payload, the repository id and the project to
the SDK call's result. -/
def AzureReposClient.CreatePullRequest (client : AzureReposClient)
    (owner repository sourceBranch targetBranch title description : String)
    (providerCreate : GitPullRequest → String → String → Except GoError GitPullRequest) :
    Option GoError :=
  match client.buildAzureReposClient with
  | .error e => some e
  | .ok _ =>
    let sourceBranch := vcsutils.addBranchRefName sourceBranch
    let targetBranch := vcsutils.addBranchRefName targetBranch
    match providerCreate
        { Description := description
          SourceRefName := sourceBranch
          TargetRefName := targetBranch
          Title := title }
        repository client.vcsInfo.Project with
    | .error e => some e
    | .ok _ => none

/-- One line of the comment aggregation in `ListPullRequestComments` (lines
206-210), the Go format string being
`"Author: %s, Id: %d, Content:%s\n"` applied to the comment's author display
name, id and content. -/
def commentLine (c : Comment) : String :=
  "Author: " ++ c.AuthorDisplayName ++ ", Id: " ++ toString c.Id ++
    ", Content:" ++ c.Content ++ "\n"

/-- `ListPullRequestComments` (lines 188-222): the owner argument is the
ignored `_` parameter.  One `CommentInfo` is appended per thread, in response
order; its content is the `strings.Builder` aggregation of one `commentLine`
per comment of the thread, in thread order (`WriteString` on a
`strings.Builder` never fails, so the dead error branch of the Go loop is not
represented). -/
def AzureReposClient.ListPullRequestComments (client : AzureReposClient)
    (owner repository : String) (pullRequestID : Int)
    (resp : Except GoError (List CommentThread)) :
    List CommentInfo × Option GoError :=
  match client.buildAzureReposClient with
  | .error e => ([], some e)
  | .ok _ =>
    match resp with
    | .error e => ([], some e)
    | .ok threads =>
      (threads.foldl
        (fun acc thread =>
          acc ++ [{ ID := thread.Id
                    Created := thread.PublishedDate
                    Content :=
                      thread.Comments.foldl (fun s c => s ++ commentLine c) "" }])
        [],
       none)

/-- `GetLatestCommit` (lines 256-285): the owner argument is the ignored `_`
parameter.  The provider's commit list for the branch is the oracle; the first
commit, when present, is mapped field by field into `CommitInfo`; an empty list
yields the zero `CommitInfo` with a nil error. -/
def AzureReposClient.GetLatestCommit (client : AzureReposClient)
    (owner repository branch : String)
    (resp : Except GoError (List GitCommitRef)) :
    CommitInfo × Option GoError :=
  match client.buildAzureReposClient with
  | .error e => (⟨"", "", "", "", 0, "", []⟩, some e)
  | .ok _ =>
    let latestCommitInfo : CommitInfo := ⟨"", "", "", "", 0, "", []⟩
    match resp with
    | .error e => (latestCommitInfo, some e)
    | .ok commits =>
      match commits with
      | [] => (latestCommitInfo, none)
      | latestCommit :: _ =>
        ({ Hash := vcsutils.DefaultIfNotNil latestCommit.CommitId
           AuthorName := vcsutils.DefaultIfNotNil latestCommit.Author.Name
           CommitterName := vcsutils.DefaultIfNotNil latestCommit.Committer.Name
           Url := vcsutils.DefaultIfNotNil latestCommit.Url
           Timestamp := latestCommit.Committer.Date.Unix
           Message := vcsutils.DefaultIfNotNil latestCommit.Comment
           ParentHashes := vcsutils.DefaultIfNotNil latestCommit.Parents },
         none)

/-- The fields of an `http.Response` observed by `DownloadRepository`: the
status code, the result of `io.ReadAll` on its body, and the result of
`Body.Close()`. -/
structure HttpResponse where
  StatusCode : Nat
  BodyReadResult : Except GoError String
  CloseErr : Option GoError
deriving Repr

/-- Transport oracle for `sendDownloadRepoRequest`: the results of
`http.NewRequestWithContext` and of `httpClient.Do`.  A failing `Do` yields a
nil response, exactly as in Go. -/
structure TransportOracle where
  newRequestErr : Option GoError
  doResult : Except GoError HttpResponse

/-- `sendDownloadRepoRequest` (lines 117-145): builds the request (the URL and
headers are data handed to the transport and are elided; the transport's
behaviour is the oracle), issues it, and flags any status outside 200-299 as a
`fmt.Errorf` bad-status error while still returning the non-nil response.  When
request construction or `Do` fails, the returned response is nil. -/
def AzureReposClient.sendDownloadRepoRequest (client : AzureReposClient)
    (repository branch : String) (t : TransportOracle) :
    Option HttpResponse × Option GoError :=
  match t.newRequestErr with
  | some e => (none, some e)
  | none =>
    match t.doResult with
    | .error e => (none, some e)
    | .ok res =>
      if res.StatusCode < 200 ∨ 300 ≤ res.StatusCode then
        (some res, some (.clientMessage ("bad HTTP status: " ++ toString res.StatusCode)))
      else
        (some res, none)

/-- The outcome of a Go call: a normal return carrying a value, or a runtime
panic propagating to the caller. -/
inductive Outcome (α : Type) where
  | ok (a : α)
  | panicked
deriving DecidableEq, Repr

/-- Oracle for the environment interactions of `DownloadRepository`: the
results of `os.Getwd`, of `os.Chdir(localPath)`, of the deferred
`os.Chdir(wd)`, of the transport, and of `vcsutils.Unzip` (an external
collaborator per the spec, consumed through its error result). -/
structure DownloadOracle where
  getwdResult : Except GoError String
  chdirLocalErr : Option GoError
  chdirBackErr : Option GoError
  transport : TransportOracle
  unzipErr : Option GoError

/-- `DownloadRepository` (lines 79-115) together with the ambient process
working directory, modelled as explicit state `cwd`.  Returns the call's
outcome (a normal return carrying the Go error value, or a runtime panic) and
the final working directory.  Go defer semantics are modelled faithfully:
defers run last-in-first-out on normal return and on panic, so the deferred
`res.Body.Close()` (registered at line 96, before the error check at line 102)
runs first and dereferences a nil response when `sendDownloadRepoRequest`
failed without a response, which is a runtime panic; the earlier-registered
deferred `os.Chdir(wd)` still runs while the panic propagates. -/
def AzureReposClient.DownloadRepository (client : AzureReposClient)
    (owner repository branch localPath : String)
    (cwd : String) (o : DownloadOracle) :
    Outcome (Option GoError) × String :=
  match o.getwdResult with
  | .error e => (.ok (some e), cwd)
  | .ok wd =>
    match o.chdirLocalErr with
    | some e => (.ok (some e), cwd)
    | none =>
      let resErr := client.sendDownloadRepoRequest repository branch o.transport
      let res := resErr.1
      let err0 := resErr.2
      let bodyOutcome : Outcome (Option GoError) :=
        match err0 with
        | some e => .ok (some e)
        | none =>
          match res with
          | none => .panicked
          | some r =>
            match r.BodyReadResult with
            | .error e => .ok (some e)
            | .ok _ =>
              match o.unzipErr with
              | some e => .ok (some e)
              | none => .ok none
      let afterClose : Outcome (Option GoError) :=
        match res with
        | none => .panicked
        | some r =>
          match bodyOutcome with
          | .panicked => .panicked
          | .ok err =>
            match err with
            | some e => .ok (some e)
            | none =>
              match r.CloseErr with
              | some e => .ok (some e)
              | none => .ok none
      let finalCwd : String :=
        match o.chdirBackErr with
        | none => wd
        | some _ => localPath
      let final : Outcome (Option GoError) :=
        match afterClose with
        | .panicked => .panicked
        | .ok err =>
          match err with
          | some e => .ok (some e)
          | none =>
            match o.chdirBackErr with
            | some e => .ok (some e)
            | none => .ok none
      (final, finalCwd)

/-- `getUnsupportedInAzureError` (lines 287-289): the `fmt.Errorf` message
`"%s is currently not supported for Azure Repos"`. -/
def getUnsupportedInAzureError (functionName : String) : GoError :=
  .clientMessage (functionName ++ " is currently not supported for Azure Repos")

/-- `AddSshKeyToRepository` (lines 291-294). -/
def AzureReposClient.AddSshKeyToRepository (client : AzureReposClient)
    (owner repository keyName publicKey : String) (permission : Permission) :
    Option GoError :=
  some (getUnsupportedInAzureError "add ssh key to repository")

/-- `GetRepositoryInfo` (lines 296-299). -/
def AzureReposClient.GetRepositoryInfo (client : AzureReposClient)
    (owner repository : String) : RepositoryInfo × Option GoError :=
  (⟨"", "", "", ""⟩, some (getUnsupportedInAzureError "get repository info"))

/-- `GetCommitBySha` (lines 301-304). -/
def AzureReposClient.GetCommitBySha (client : AzureReposClient)
    (owner repository sha : String) : CommitInfo × Option GoError :=
  (⟨"", "", "", "", 0, "", []⟩, some (getUnsupportedInAzureError "get commit by sha"))

/-- `CreateLabel` (lines 306-309). -/
def AzureReposClient.CreateLabel (client : AzureReposClient)
    (owner repository : String) (labelInfo : LabelInfo) : Option GoError :=
  some (getUnsupportedInAzureError "create label")

/-- `GetLabel` (lines 311-314); the nil `*LabelInfo` is `none`. -/
def AzureReposClient.GetLabel (client : AzureReposClient)
    (owner repository name : String) : Option LabelInfo × Option GoError :=
  (none, some (getUnsupportedInAzureError "get label"))

/-- `ListPullRequestLabels` (lines 316-319); the nil slice is `[]`. -/
def AzureReposClient.ListPullRequestLabels (client : AzureReposClient)
    (owner repository : String) (pullRequestID : Int) :
    List String × Option GoError :=
  ([], some (getUnsupportedInAzureError "list pull request labels"))

/-- `UnlabelPullRequest` (lines 321-324). -/
def AzureReposClient.UnlabelPullRequest (client : AzureReposClient)
    (owner repository name : String) (pullRequestID : Int) : Option GoError :=
  some (getUnsupportedInAzureError "unlabel pull request")

/-- `UploadCodeScanning` (lines 326-329). -/
def AzureReposClient.UploadCodeScanning (client : AzureReposClient)
    (owner repository branch scanResults : String) : String × Option GoError :=
  ("", some (getUnsupportedInAzureError "upload code scanning"))

/-- `CreateWebhook` (lines 331-334). -/
def AzureReposClient.CreateWebhook (client : AzureReposClient)
    (owner repository branch payloadURL : String)
    (webhookEvents : List vcsutils.WebhookEvent) :
    String × String × Option GoError :=
  ("", "", some (getUnsupportedInAzureError "create webhook"))

/-- `UpdateWebhook` (lines 336-339). -/
def AzureReposClient.UpdateWebhook (client : AzureReposClient)
    (owner repository branch payloadURL token webhookID : String)
    (webhookEvents : List vcsutils.WebhookEvent) : Option GoError :=
  some (getUnsupportedInAzureError "update webhook")

/-- `DeleteWebhook` (lines 341-344). -/
def AzureReposClient.DeleteWebhook (client : AzureReposClient)
    (owner repository webhookID : String) : Option GoError :=
  some (getUnsupportedInAzureError "delete webhook")

/-- `SetCommitStatus` (lines 346-349). -/
def AzureReposClient.SetCommitStatus (client : AzureReposClient)
    (commitStatus : CommitStatus)
    (owner repository ref title description detailsURL : String) :
    Option GoError :=
  some (getUnsupportedInAzureError "set commit status")

/-- Modelled from the spec: `BranchInfo` (repository code outside this file),
"(Name, Repository)". -/
structure BranchInfo where
  Name : String
  Repository : String
deriving DecidableEq, Repr

/-- Modelled from the spec: `PullRequestInfo` (repository code outside this
file), "(ID, Source BranchInfo, Target BranchInfo)", with the fields populated
by `ListOpenPullRequests` in this file. -/
structure PullRequestInfo where
  ID : Int
  Source : BranchInfo
  Target : BranchInfo
deriving DecidableEq, Repr

/-- Fields of the SDK `git.GitPullRequest` read by `ListOpenPullRequests`
(`PullRequestId`, `SourceRefName`, `TargetRefName`); the ref-name pointer
fields that the code guards with `vcsutils.DefaultIfNotNil` are `Option`. -/
structure GitPullRequestListed where
  PullRequestId : Int
  SourceRefName : Option String
  TargetRefName : Option String
deriving DecidableEq, Repr

/-- `AddPullRequestComment` (lines 169-186): the owner argument is the ignored
`_` parameter.  The method opens one new active thread holding one comment with
the given content; the oracle `providerCreateThread` maps the comment content,
the repository id, the pull request id and the project to the SDK call's
result, whose error (if any) is returned unchanged. -/
def AzureReposClient.AddPullRequestComment (client : AzureReposClient)
    (owner repository content : String) (pullRequestID : Int)
    (providerCreateThread : String → String → Int → String → Except GoError Unit) :
    Option GoError :=
  match client.buildAzureReposClient with
  | .error e => some e
  | .ok _ =>
    match providerCreateThread content repository pullRequestID
        client.vcsInfo.Project with
    | .error e => some e
    | .ok _ => none

/-- `ListOpenPullRequests` (lines 224-254): the owner argument is the ignored
`_` parameter.  The provider's active pull requests are the oracle; each is
mapped in response order into a `PullRequestInfo` whose source and target
branches carry the repository argument. -/
def AzureReposClient.ListOpenPullRequests (client : AzureReposClient)
    (owner repository : String)
    (resp : Except GoError (List GitPullRequestListed)) :
    List PullRequestInfo × Option GoError :=
  match client.buildAzureReposClient with
  | .error e => ([], some e)
  | .ok _ =>
    match resp with
    | .error e => ([], some e)
    | .ok pullRequests =>
      (pullRequests.foldl
        (fun acc pullRequest =>
          acc ++ [{ ID := pullRequest.PullRequestId
                    Source := { Name := vcsutils.DefaultIfNotNil pullRequest.SourceRefName
                                Repository := repository }
                    Target := { Name := vcsutils.DefaultIfNotNil pullRequest.TargetRefName
                                Repository := repository } }])
        [],
       none)

/-! Helper lemmas shared by the claim theorems. -/

theorem string_data_append (a b : String) : (a ++ b).data = a.data ++ b.data := rfl

theorem names_operation_and_provider_of_unsupported (s : String) :
    NamesOperationAndProvider (getUnsupportedInAzureError s) s := by
  constructor
  · refine ⟨[], (" is currently not supported for Azure Repos").data, ?_⟩
    simp [getUnsupportedInAzureError, GoError.text, string_data_append]
  · refine ⟨s.data ++ (" is currently not supported for ").data, [], ?_⟩
    have h : (" is currently not supported for Azure Repos").data
        = (" is currently not supported for ").data ++ ("Azure Repos").data := by
      decide
    simp [getUnsupportedInAzureError, GoError.text, string_data_append, h]

theorem foldl_append_singleton_map {α β : Type} (f : α → β) (l : List α)
    (acc : List β) :
    l.foldl (fun a x => a ++ [f x]) acc = acc ++ l.map f := by
  induction l generalizing acc with
  | nil => simp
  | cons x xs ih => simp [ih]

theorem mapAppend_fold_single (k : String) (repos : List GitRepository)
    (vs : List String) :
    repos.foldl (fun m r => mapAppend m k r.Name) [(k, vs)]
      = [(k, vs ++ repos.map GitRepository.Name)] := by
  induction repos generalizing vs with
  | nil => simp
  | cons r rs ih =>
    have step : mapAppend [(k, vs)] k r.Name = [(k, vs ++ [r.Name])] := by
      simp [mapAppend]
    rw [List.foldl_cons, step, ih]
    simp

theorem builder_fold_eq_join (l : List Comment) :
    l.foldl (fun s c => s ++ commentLine c) "" = String.join (l.map commentLine) := by
  simp [String.join, List.foldl_map]

theorem listPullRequestComments_ok_eq (vi : VcsInfo) (conn : Connection)
    (owner repository : String) (pid : Int) (threads : List CommentThread) :
    AzureReposClient.ListPullRequestComments ⟨vi, some conn⟩ owner repository pid
        (.ok threads)
      = (threads.map (fun t =>
           { ID := t.Id
             Created := t.PublishedDate
             Content := t.Comments.foldl (fun s c => s ++ commentLine c) "" }),
         none) := by
  unfold AzureReposClient.ListPullRequestComments AzureReposClient.buildAzureReposClient
  simp [foldl_append_singleton_map]

/-! The claim theorems. -/

/-- C1: each of the 12 operations unsupported on Azure Repos
(`AddSshKeyToRepository`, `GetRepositoryInfo`, `GetCommitBySha`, `CreateLabel`,
`GetLabel`, `ListPullRequestLabels`, `UnlabelPullRequest`, `UploadCodeScanning`,
`CreateWebhook`, `UpdateWebhook`, `DeleteWebhook`, `SetCommitStatus`) returns,
for every client state and every input, a non-nil error whose message names both
the operation and the provider Azure Repos, together with zero values for all
non-error results; none of them ever returns a nil error, and the model
functions are total, so no call panics. -/
theorem unsupported_operations_return_unsupported_error :
    (∀ (client : AzureReposClient) (owner repository keyName publicKey : String)
        (permission : Permission),
      ∃ e, client.AddSshKeyToRepository owner repository keyName publicKey permission
          = some e ∧
        NamesOperationAndProvider e "add ssh key to repository") ∧
    (∀ (client : AzureReposClient) (owner repository : String),
      ∃ e, client.GetRepositoryInfo owner repository
          = ({ Name := "", Owner := "", Visibility := "", CloneUrl := "" }, some e) ∧
        NamesOperationAndProvider e "get repository info") ∧
    (∀ (client : AzureReposClient) (owner repository sha : String),
      ∃ e, client.GetCommitBySha owner repository sha
          = ({ Hash := "", AuthorName := "", CommitterName := "", Url := "",
               Timestamp := 0, Message := "", ParentHashes := [] }, some e) ∧
        NamesOperationAndProvider e "get commit by sha") ∧
    (∀ (client : AzureReposClient) (owner repository : String) (labelInfo : LabelInfo),
      ∃ e, client.CreateLabel owner repository labelInfo = some e ∧
        NamesOperationAndProvider e "create label") ∧
    (∀ (client : AzureReposClient) (owner repository name : String),
      ∃ e, client.GetLabel owner repository name = (none, some e) ∧
        NamesOperationAndProvider e "get label") ∧
    (∀ (client : AzureReposClient) (owner repository : String) (pullRequestID : Int),
      ∃ e, client.ListPullRequestLabels owner repository pullRequestID = ([], some e) ∧
        NamesOperationAndProvider e "list pull request labels") ∧
    (∀ (client : AzureReposClient) (owner repository name : String) (pullRequestID : Int),
      ∃ e, client.UnlabelPullRequest owner repository name pullRequestID = some e ∧
        NamesOperationAndProvider e "unlabel pull request") ∧
    (∀ (client : AzureReposClient) (owner repository branch scanResults : String),
      ∃ e, client.UploadCodeScanning owner repository branch scanResults = ("", some e) ∧
        NamesOperationAndProvider e "upload code scanning") ∧
    (∀ (client : AzureReposClient) (owner repository branch payloadURL : String)
        (webhookEvents : List vcsutils.WebhookEvent),
      ∃ e, client.CreateWebhook owner repository branch payloadURL webhookEvents
          = ("", "", some e) ∧
        NamesOperationAndProvider e "create webhook") ∧
    (∀ (client : AzureReposClient) (owner repository branch payloadURL token webhookID : String)
        (webhookEvents : List vcsutils.WebhookEvent),
      ∃ e, client.UpdateWebhook owner repository branch payloadURL token webhookID
          webhookEvents = some e ∧
        NamesOperationAndProvider e "update webhook") ∧
    (∀ (client : AzureReposClient) (owner repository webhookID : String),
      ∃ e, client.DeleteWebhook owner repository webhookID = some e ∧
        NamesOperationAndProvider e "delete webhook") ∧
    (∀ (client : AzureReposClient) (commitStatus : CommitStatus)
        (owner repository ref title description detailsURL : String),
      ∃ e, client.SetCommitStatus commitStatus owner repository ref title description
          detailsURL = some e ∧
        NamesOperationAndProvider e "set commit status") := by
  refine ⟨?_, ?_, ?_, ?_, ?_, ?_, ?_, ?_, ?_, ?_, ?_, ?_⟩ <;>
    intros <;> exact ⟨_, rfl, names_operation_and_provider_of_unsupported _⟩

/-- C2: evaluation of `DownloadRepository` at the failing input.  When the
transport fails in `httpClient.Do` (a network failure during the fetch),
`sendDownloadRepoRequest` returns a nil response together with the error; the
deferred `res.Body.Close()` was registered before the error check, dereferences
the nil response and panics, so the call panics instead of returning the error
(the earlier-registered deferred `os.Chdir(wd)` does still restore the working
directory while the panic propagates). -/
theorem downloadRepository_panics_on_transport_failure :
    AzureReposClient.DownloadRepository
        ⟨⟨"https://dev.azure.com/org", "token", "proj"⟩,
         some ⟨"https://dev.azure.com/org", "authorization"⟩⟩
        "owner" "repo" "main" "/tmp/clone" "/home/user"
        { getwdResult := .ok "/home/user"
          chdirLocalErr := none
          chdirBackErr := none
          transport := { newRequestErr := none
                         doResult := .error (.providerNative "connection reset by peer") }
          unzipErr := none }
      = (.panicked, "/home/user") := rfl

/-- C3 counterexample: `TestConnection` passes the provider's native error value
through unchanged, so a provider-native error value crosses the interface
boundary and the error returned to the caller is not a backend-classified
uniform kind. -/
theorem testConnection_passes_provider_native_error_through :
    AzureReposClient.TestConnection
        ⟨⟨"https://dev.azure.com/org", "token", "proj"⟩,
         some ⟨"https://dev.azure.com/org", "authorization"⟩⟩
        (.error (.providerNative "TF400813: the user is not authorized"))
      = some (.providerNative "TF400813: the user is not authorized") ∧
    (GoError.providerNative "TF400813: the user is not authorized").isProviderNative
      = true :=
  ⟨rfl, rfl⟩

/-- C3 (amended): the backend does not classify provider/transport failures
into the seven uniform kinds.  `TestConnection`, `ListRepositories`,
`ListBranches`, `CreatePullRequest`, `AddPullRequestComment`,
`ListPullRequestComments`, `ListOpenPullRequests` and `GetLatestCommit` each
return the provider's error value verbatim, so provider-native error values
cross the interface boundary.  The backend constructs message errors of its own
for the unsupported-operation stubs, for an uninitialized connection (returned
here through `ListBranches` on a client with nil connection details), and for a
non-2xx download HTTP status in `sendDownloadRepoRequest`; and a transport
failure inside `DownloadRepository` surfaces no error at all but panics. -/
theorem provider_errors_propagate_verbatim :
    (∀ (client : AzureReposClient) (e : GoError),
      client.TestConnection (.error e) = some e) ∧
    (∀ (vi : VcsInfo) (conn : Connection) (e : GoError),
      AzureReposClient.ListRepositories ⟨vi, some conn⟩ (.error e) = ([], some e)) ∧
    (∀ (vi : VcsInfo) (conn : Connection) (owner repository : String) (e : GoError),
      AzureReposClient.ListBranches ⟨vi, some conn⟩ owner repository (.error e)
        = ([], some e)) ∧
    (∀ (vi : VcsInfo) (conn : Connection)
        (owner repository sourceBranch targetBranch title description : String)
        (e : GoError),
      AzureReposClient.CreatePullRequest ⟨vi, some conn⟩ owner repository
          sourceBranch targetBranch title description (fun _ _ _ => .error e)
        = some e) ∧
    (∀ (vi : VcsInfo) (conn : Connection) (owner repository content : String)
        (pullRequestID : Int) (e : GoError),
      AzureReposClient.AddPullRequestComment ⟨vi, some conn⟩ owner repository
          content pullRequestID (fun _ _ _ _ => .error e)
        = some e) ∧
    (∀ (vi : VcsInfo) (conn : Connection) (owner repository : String)
        (pullRequestID : Int) (e : GoError),
      AzureReposClient.ListPullRequestComments ⟨vi, some conn⟩ owner repository
          pullRequestID (.error e)
        = ([], some e)) ∧
    (∀ (vi : VcsInfo) (conn : Connection) (owner repository : String) (e : GoError),
      AzureReposClient.ListOpenPullRequests ⟨vi, some conn⟩ owner repository (.error e)
        = ([], some e)) ∧
    (∀ (vi : VcsInfo) (conn : Connection) (owner repository branch : String) (e : GoError),
      AzureReposClient.GetLatestCommit ⟨vi, some conn⟩ owner repository branch (.error e)
        = ({ Hash := "", AuthorName := "", CommitterName := "", Url := "",
             Timestamp := 0, Message := "", ParentHashes := [] }, some e)) ∧
    (∀ (vi : VcsInfo) (owner repository : String)
        (resp : Except GoError (List GitBranchStats)),
      AzureReposClient.ListBranches ⟨vi, none⟩ owner repository resp
        = ([], some (.clientMessage "connection details wasn't initialized")) ∧
      (GoError.clientMessage "connection details wasn't initialized").isProviderNative
        = false) ∧
    (∀ (client : AzureReposClient) (repository branch : String)
        (body : Except GoError String) (closeErr : Option GoError),
      (client.sendDownloadRepoRequest repository branch
          { newRequestErr := none
            doResult := .ok { StatusCode := 404
                              BodyReadResult := body
                              CloseErr := closeErr } }).2
        = some (.clientMessage "bad HTTP status: 404") ∧
      (GoError.clientMessage "bad HTTP status: 404").isProviderNative = false) ∧
    (∀ (client : AzureReposClient)
        (owner repository branch localPath cwd wd : String)
        (chdirBackErr : Option GoError) (e : GoError),
      (client.DownloadRepository owner repository branch localPath cwd
          { getwdResult := .ok wd
            chdirLocalErr := none
            chdirBackErr := chdirBackErr
            transport := { newRequestErr := none, doResult := .error e }
            unzipErr := none }).1
        = .panicked) :=
  by
  refine ⟨fun _ _ => rfl, fun _ _ _ => rfl, fun _ _ _ _ _ => rfl,
    fun _ _ _ _ _ _ _ _ _ => rfl, fun _ _ _ _ _ _ _ => rfl,
    fun _ _ _ _ _ _ => rfl, fun _ _ _ _ _ => rfl, fun _ _ _ _ _ _ => rfl,
    fun _ _ _ _ => ⟨rfl, rfl⟩, fun _ _ _ _ _ => ⟨?_, rfl⟩,
    fun _ _ _ _ _ _ _ _ _ => rfl⟩
  have h : ("bad HTTP status: " ++ toString (404 : Nat)) = "bad HTTP status: 404" := by
    decide
  simp [AzureReposClient.sendDownloadRepoRequest, h]

/-- C4: on a successful provider response, `ListPullRequestComments` returns a
nil error and exactly one `CommentInfo` per thread, where the `ID` is the
thread identifier, `Created` is the thread's published date, and `Content` is
the concatenation, in thread order, of one `commentLine` per comment of the
thread (each line tagged with the comment's author display name, id and text). -/
theorem listPullRequestComments_thread_flattening
    (vi : VcsInfo) (conn : Connection) (owner repository : String)
    (pullRequestID : Int) (threads : List CommentThread) :
    (AzureReposClient.ListPullRequestComments ⟨vi, some conn⟩ owner repository
        pullRequestID (.ok threads)).2 = none ∧
    List.Forall₂
      (fun (info : CommentInfo) (t : CommentThread) =>
        info.ID = t.Id ∧ info.Created = t.PublishedDate ∧
          info.Content = String.join (t.Comments.map commentLine))
      (AzureReposClient.ListPullRequestComments ⟨vi, some conn⟩ owner repository
        pullRequestID (.ok threads)).1
      threads := by
  rw [listPullRequestComments_ok_eq]
  refine ⟨rfl, ?_⟩
  induction threads with
  | nil => exact List.Forall₂.nil
  | cons t ts ih =>
    exact List.Forall₂.cons ⟨rfl, rfl, builder_fold_eq_join t.Comments⟩ ih

/-- C5: on a successful provider response, `GetLatestCommit` maps the first
commit of the provider's list field by field into `CommitInfo` (absent pointer
fields becoming zero values), and an existing branch with no commits yields the
zero-value `CommitInfo` together with a nil error rather than an error. -/
theorem getLatestCommit_head_mapping_and_empty
    (vi : VcsInfo) (conn : Connection) (owner repository branch : String) :
    AzureReposClient.GetLatestCommit ⟨vi, some conn⟩ owner repository branch (.ok [])
      = ({ Hash := "", AuthorName := "", CommitterName := "", Url := "",
           Timestamp := 0, Message := "", ParentHashes := [] }, none) ∧
    ∀ (c : GitCommitRef) (rest : List GitCommitRef),
      AzureReposClient.GetLatestCommit ⟨vi, some conn⟩ owner repository branch
          (.ok (c :: rest))
        = ({ Hash := c.CommitId.getD "", AuthorName := c.Author.Name.getD "",
             CommitterName := c.Committer.Name.getD "", Url := c.Url.getD "",
             Timestamp := c.Committer.Date.unix, Message := c.Comment.getD "",
             ParentHashes := c.Parents.getD [] }, none) :=
  ⟨rfl, fun _ _ => rfl⟩

/-- C6: for every commit successfully returned by `GetLatestCommit`, the
`Timestamp` field is the committer's time as unix seconds; in particular, when
the author time differs from the committer time, the `Timestamp` is not the
author's time. -/
theorem getLatestCommit_timestamp_committer_time
    (vi : VcsInfo) (conn : Connection) (owner repository branch : String)
    (c : GitCommitRef) (rest : List GitCommitRef) :
    (AzureReposClient.GetLatestCommit ⟨vi, some conn⟩ owner repository branch
        (.ok (c :: rest))).1.Timestamp = c.Committer.Date.Unix ∧
    (c.Author.Date.Unix ≠ c.Committer.Date.Unix →
      (AzureReposClient.GetLatestCommit ⟨vi, some conn⟩ owner repository branch
          (.ok (c :: rest))).1.Timestamp ≠ c.Author.Date.Unix) :=
  ⟨rfl, fun h hc => h hc.symm⟩

/-- Witness for C6 at a concrete commit whose author time (1) differs from its
committer time (2): the returned timestamp is not the author time. -/
theorem getLatestCommit_timestamp_committer_time_witness :
    GoTime.Unix ⟨1⟩ ≠ GoTime.Unix ⟨2⟩ ∧
    (AzureReposClient.GetLatestCommit ⟨⟨"e", "t", "p"⟩, some ⟨"e", "a"⟩⟩ "o" "r" "b"
        (.ok [{ CommitId := some "abc"
                Author := { Name := some "alice", Date := ⟨1⟩ }
                Committer := { Name := some "bob", Date := ⟨2⟩ }
                Url := none, Comment := none, Parents := none }])).1.Timestamp
      ≠ GoTime.Unix ⟨1⟩ :=
  ⟨by decide,
   (getLatestCommit_timestamp_committer_time ⟨"e", "t", "p"⟩ ⟨"e", "a"⟩ "o" "r" "b"
      { CommitId := some "abc"
        Author := { Name := some "alice", Date := ⟨1⟩ }
        Committer := { Name := some "bob", Date := ⟨2⟩ }
        Url := none, Comment := none, Parents := none } []).2 (by decide)⟩

/-- C7: `ListPullRequestComments` preserves the order of the provider's thread
sequence: the returned `CommentInfo` IDs are exactly the thread identifiers in
the same order (so threads created in order A, B, C come back exactly as
A, B, C), and a pull request with no comment threads yields the empty sequence
together with a nil error rather than an error. -/
theorem listPullRequestComments_order_and_empty
    (vi : VcsInfo) (conn : Connection) (owner repository : String) (pid : Int) :
    AzureReposClient.ListPullRequestComments ⟨vi, some conn⟩ owner repository pid
        (.ok []) = ([], none) ∧
    (∀ threads : List CommentThread,
      ((AzureReposClient.ListPullRequestComments ⟨vi, some conn⟩ owner repository pid
          (.ok threads)).1.map CommentInfo.ID) = threads.map CommentThread.Id ∧
      (AzureReposClient.ListPullRequestComments ⟨vi, some conn⟩ owner repository pid
          (.ok threads)).2 = none) ∧
    (∀ tA tB tC : CommentThread,
      ((AzureReposClient.ListPullRequestComments ⟨vi, some conn⟩ owner repository pid
          (.ok [tA, tB, tC])).1.map CommentInfo.ID) = [tA.Id, tB.Id, tC.Id]) := by
  refine ⟨by rw [listPullRequestComments_ok_eq]; rfl, fun threads => ?_, fun tA tB tC => ?_⟩
  · rw [listPullRequestComments_ok_eq]
    exact ⟨by simp, rfl⟩
  · rw [listPullRequestComments_ok_eq]
    simp

/-- C8 counterexample: a call of `CreatePullRequest` whose source and target
branches are the identical branch `main`, against a provider that accepts the
request, returns a nil error — it silently succeeds instead of failing with a
`ValidationError`. -/
theorem createPullRequest_identical_branches_silent_success :
    AzureReposClient.CreatePullRequest
        ⟨⟨"https://dev.azure.com/org", "token", "proj"⟩,
         some ⟨"https://dev.azure.com/org", "authorization"⟩⟩
        "owner" "repo" "main" "main" "title" "description"
        (fun pr _ _ => .ok pr)
      = none := rfl

/-- C8 (amended): `CreatePullRequest` performs no branch validation of its own:
it normalizes both branch names with the canonical ref prefix, forwards the
payload to the provider, and returns the provider's error verbatim (a nil error
exactly when the provider accepts); any rejection of malformed or identical
branches is provider-side and its error is not re-expressed by the backend. -/
theorem createPullRequest_forwards_provider_result
    (vi : VcsInfo) (conn : Connection)
    (owner repository sourceBranch targetBranch title description : String)
    (providerCreate : GitPullRequest → String → String → Except GoError GitPullRequest) :
    AzureReposClient.CreatePullRequest ⟨vi, some conn⟩ owner repository sourceBranch
        targetBranch title description providerCreate
      = (match providerCreate
            { Description := description
              SourceRefName := vcsutils.addBranchRefName sourceBranch
              TargetRefName := vcsutils.addBranchRefName targetBranch
              Title := title }
            repository vi.Project with
         | .error e => some e
         | .ok _ => none) := rfl

/-- C9: on a successful provider response, `ListRepositories` maps the
configured project to the ordered sequence of the repository names returned by
the provider, and a project with no repositories yields the empty mapping
together with a nil error rather than an error. -/
theorem listRepositories_project_mapping (vi : VcsInfo) (conn : Connection) :
    AzureReposClient.ListRepositories ⟨vi, some conn⟩ (.ok []) = ([], none) ∧
    ∀ repos : List GitRepository, repos ≠ [] →
      AzureReposClient.ListRepositories ⟨vi, some conn⟩ (.ok repos)
        = ([(vi.Project, repos.map GitRepository.Name)], none) := by
  refine ⟨rfl, fun repos hne => ?_⟩
  match repos, hne with
  | r :: rs, _ =>
    unfold AzureReposClient.ListRepositories AzureReposClient.buildAzureReposClient
    simp only
    rw [List.foldl_cons,
      show mapAppend [] vi.Project r.Name = [(vi.Project, [r.Name])] from rfl,
      mapAppend_fold_single]
    simp

/-- Witness for C9 at a concrete nonempty repository list. -/
theorem listRepositories_project_mapping_witness :
    ([⟨"repo1"⟩] : List GitRepository) ≠ [] ∧
    AzureReposClient.ListRepositories ⟨⟨"e", "t", "proj"⟩, some ⟨"e", "a"⟩⟩
        (.ok [⟨"repo1"⟩])
      = ([("proj", ["repo1"])], none) :=
  ⟨by decide,
   (listRepositories_project_mapping ⟨"e", "t", "proj"⟩ ⟨"e", "a"⟩).2
     [⟨"repo1"⟩] (by decide)⟩

/-- C10: every operation of the Azure backend that accepts an owner argument —
the seven implemented methods `ListBranches`, `DownloadRepository`,
`CreatePullRequest`, `AddPullRequestComment`, `ListPullRequestComments`,
`ListOpenPullRequests` and `GetLatestCommit`, and the twelve unsupported stubs —
ignores it entirely: two calls that differ only in the owner argument, with
equal connection state and equal provider responses, return identical results
and errors, because the backend always uses the project of its connection
descriptor. -/
theorem owner_argument_ignored :
    (∀ (client : AzureReposClient) (owner1 owner2 repository : String)
        (resp : Except GoError (List GitBranchStats)),
      client.ListBranches owner1 repository resp
        = client.ListBranches owner2 repository resp) ∧
    (∀ (client : AzureReposClient)
        (owner1 owner2 repository branch localPath cwd : String) (o : DownloadOracle),
      client.DownloadRepository owner1 repository branch localPath cwd o
        = client.DownloadRepository owner2 repository branch localPath cwd o) ∧
    (∀ (client : AzureReposClient)
        (owner1 owner2 repository sourceBranch targetBranch title description : String)
        (providerCreate : GitPullRequest → String → String → Except GoError GitPullRequest),
      client.CreatePullRequest owner1 repository sourceBranch targetBranch title
          description providerCreate
        = client.CreatePullRequest owner2 repository sourceBranch targetBranch title
            description providerCreate) ∧
    (∀ (client : AzureReposClient) (owner1 owner2 repository content : String)
        (pullRequestID : Int)
        (providerCreateThread : String → String → Int → String → Except GoError Unit),
      client.AddPullRequestComment owner1 repository content pullRequestID
          providerCreateThread
        = client.AddPullRequestComment owner2 repository content pullRequestID
            providerCreateThread) ∧
    (∀ (client : AzureReposClient) (owner1 owner2 repository : String)
        (pullRequestID : Int) (resp : Except GoError (List CommentThread)),
      client.ListPullRequestComments owner1 repository pullRequestID resp
        = client.ListPullRequestComments owner2 repository pullRequestID resp) ∧
    (∀ (client : AzureReposClient) (owner1 owner2 repository : String)
        (resp : Except GoError (List GitPullRequestListed)),
      client.ListOpenPullRequests owner1 repository resp
        = client.ListOpenPullRequests owner2 repository resp) ∧
    (∀ (client : AzureReposClient) (owner1 owner2 repository branch : String)
        (resp : Except GoError (List GitCommitRef)),
      client.GetLatestCommit owner1 repository branch resp
        = client.GetLatestCommit owner2 repository branch resp) ∧
    (∀ (client : AzureReposClient)
        (owner1 owner2 repository keyName publicKey : String) (permission : Permission),
      client.AddSshKeyToRepository owner1 repository keyName publicKey permission
        = client.AddSshKeyToRepository owner2 repository keyName publicKey permission) ∧
    (∀ (client : AzureReposClient) (owner1 owner2 repository : String),
      client.GetRepositoryInfo owner1 repository
        = client.GetRepositoryInfo owner2 repository) ∧
    (∀ (client : AzureReposClient) (owner1 owner2 repository sha : String),
      client.GetCommitBySha owner1 repository sha
        = client.GetCommitBySha owner2 repository sha) ∧
    (∀ (client : AzureReposClient) (owner1 owner2 repository : String)
        (labelInfo : LabelInfo),
      client.CreateLabel owner1 repository labelInfo
        = client.CreateLabel owner2 repository labelInfo) ∧
    (∀ (client : AzureReposClient) (owner1 owner2 repository name : String),
      client.GetLabel owner1 repository name = client.GetLabel owner2 repository name) ∧
    (∀ (client : AzureReposClient) (owner1 owner2 repository : String)
        (pullRequestID : Int),
      client.ListPullRequestLabels owner1 repository pullRequestID
        = client.ListPullRequestLabels owner2 repository pullRequestID) ∧
    (∀ (client : AzureReposClient) (owner1 owner2 repository name : String)
        (pullRequestID : Int),
      client.UnlabelPullRequest owner1 repository name pullRequestID
        = client.UnlabelPullRequest owner2 repository name pullRequestID) ∧
    (∀ (client : AzureReposClient) (owner1 owner2 repository branch scanResults : String),
      client.UploadCodeScanning owner1 repository branch scanResults
        = client.UploadCodeScanning owner2 repository branch scanResults) ∧
    (∀ (client : AzureReposClient) (owner1 owner2 repository branch payloadURL : String)
        (webhookEvents : List vcsutils.WebhookEvent),
      client.CreateWebhook owner1 repository branch payloadURL webhookEvents
        = client.CreateWebhook owner2 repository branch payloadURL webhookEvents) ∧
    (∀ (client : AzureReposClient)
        (owner1 owner2 repository branch payloadURL token webhookID : String)
        (webhookEvents : List vcsutils.WebhookEvent),
      client.UpdateWebhook owner1 repository branch payloadURL token webhookID
          webhookEvents
        = client.UpdateWebhook owner2 repository branch payloadURL token webhookID
            webhookEvents) ∧
    (∀ (client : AzureReposClient) (owner1 owner2 repository webhookID : String),
      client.DeleteWebhook owner1 repository webhookID
        = client.DeleteWebhook owner2 repository webhookID) ∧
    (∀ (client : AzureReposClient) (commitStatus : CommitStatus)
        (owner1 owner2 repository ref title description detailsURL : String),
      client.SetCommitStatus commitStatus owner1 repository ref title description
          detailsURL
        = client.SetCommitStatus commitStatus owner2 repository ref title description
            detailsURL) := by
  refine ⟨?_, ?_, ?_, ?_, ?_, ?_, ?_, ?_, ?_, ?_, ?_, ?_, ?_, ?_, ?_, ?_, ?_, ?_, ?_⟩ <;>
    intros <;> rfl
